import Mathlib

/-!
Shallow embedding of the AnLex Guard security controller.

The first part embeds `app/state_machine.py` (`SecurityStateMachine`):
the mode enum, the event log, the async task queue, and the event
handlers `arm_system`, `disarm_system`, `handle_motion`, `handle_rfid`,
plus one iteration of the `_loop_main_logic` 100ms tick body.

Time values (`time.time()` samples and the configured delays) are
modelled as rationals.  Hardware calls are modelled by the bits of
device state the state machine itself controls (siren running, servo
locked); pure display side effects hidden inside detached helper
threads (`_arm_blink_sequence`) touch no shared state and are omitted.
Event timestamps (wall-clock strings) are abstracted away: an event is
its type, details and mode-at-time, exactly the fields the code fills
besides the timestamp.

The second part embeds `database_interface.py` (`DatabaseInterface`):
the local SQLite buffer rows with their `synced` flag, the
`log_environment` / `log_security` append paths, and one cycle of the
outbox sync (`_sync_measurements` / `_sync_security`) against an
abstract remote-transaction outcome.
-/

namespace AnlexGuard

/-- System operating modes (`SystemMode` in `app/state_machine.py`). -/
inductive SystemMode where
  | DISARMED
  | ARMED
  | PRE_ALARM
  | ALARM
deriving DecidableEq, Repr

/-- The `.value` string of each mode, as in the Python `Enum`. -/
def SystemMode.value : SystemMode → String
  | .DISARMED => "disarmed"
  | .ARMED => "armed"
  | .PRE_ALARM => "pre_alarm"
  | .ALARM => "alarm"

/-- LED blinking patterns (`LEDPattern` in `app/state_machine.py`). -/
inductive LEDPattern where
  | OFF
  | SOLID
  | SLOW_BLINK
  | FAST_BLINK
deriving DecidableEq, Repr

/-- One entry of the in-memory event log, as built by `_log_event`:
type, free-text details, and the mode at logging time.  The UTC
timestamp string is abstracted away. -/
structure Event where
  etype : String
  details : String
  mode : SystemMode
deriving DecidableEq, Repr

/-- Values published to Adafruit IO feeds: strings, small integers, or
the JSON dump of an event (`json.dumps(event)` is injective on events,
so the event itself stands for its JSON rendering). -/
inductive PubVal where
  | s (v : String)
  | n (v : Int)
  | ev (e : Event)
deriving DecidableEq, Repr

/-- Entries of the async task queue `_task_queue`, one constructor per
tuple tag processed by `_loop_task_processor`. -/
inductive Task where
  | publish (feed : String) (value : PubVal)
  | capturePhoto (reason : String)
  | beep (duration : ℚ)
  | sendEmailAlert
deriving DecidableEq, Repr

/-- The configuration the state machine reads: the four timing knobs of
`config.logic` used by the embedded handlers, and the integer allow-list
`config.authorized_rfids`. -/
structure SMConfig where
  preAlarmDelaySeconds : ℚ
  alarmDurationSeconds : ℚ
  motionTimeoutSeconds : ℚ
  photoIntervalSeconds : ℚ
  authorizedRfids : List Nat
deriving DecidableEq, Repr

/-- The mutable state of `SecurityStateMachine`: mode, stealth flag, LED
pattern, the four timing fields, the event log, the task queue, and the
actuator state the machine drives (siren running, servo locked). -/
structure MachineState where
  mode : SystemMode
  stealthMode : Bool
  ledPattern : LEDPattern
  lastMotionTime : ℚ
  preAlarmStart : ℚ
  alarmStart : ℚ
  lastPhotoTime : ℚ
  eventLog : List Event
  taskQueue : List Task
  buzzerOn : Bool
  servoLocked : Bool
deriving DecidableEq, Repr

/-- `_max_log_size`: the in-memory event log keeps at most 1000 entries. -/
def maxLogSize : Nat := 1000

/-- The event-log update inside `_log_event`: append, then `pop(0)` the
oldest entry if the log exceeds `_max_log_size`. -/
def appendEvent (log : List Event) (e : Event) : List Event :=
  let l := log ++ [e]
  if l.length > maxLogSize then l.drop 1 else l

/-- `_log_event(event_type, details)`: build the event with the current
mode, append it to the bounded log, and enqueue a publish of its JSON to
the `event_log` feed. -/
def logEvent (etype details : String) (st : MachineState) : MachineState :=
  let e : Event := ⟨etype, details, st.mode⟩
  { st with
    eventLog := appendEvent st.eventLog e
    taskQueue := st.taskQueue ++ [Task.publish "event_log" (PubVal.ev e)] }

/-- `arm_system(source)`: refuse (returning `False`, touching nothing)
unless the mode is DISARMED; otherwise lock the servo, set mode ARMED
with the stealth-dependent LED pattern, log an ARM event and enqueue
`publish("mode", "armed")`.  The detached 3-blink thread touches only
the LED hardware and is omitted. -/
def armSystem (source : String) (st : MachineState) : Bool × MachineState :=
  if st.mode ≠ SystemMode.DISARMED then
    (false, st)
  else
    let st1 := { st with
      servoLocked := true
      mode := SystemMode.ARMED
      ledPattern := if st.stealthMode then LEDPattern.OFF else LEDPattern.SOLID }
    let st2 := logEvent "ARM" ("Source: " ++ source) st1
    (true, { st2 with taskQueue := st2.taskQueue ++ [Task.publish "mode" (PubVal.s "armed")] })

/-- `disarm_system(source)`: unconditionally stop the buzzer, unlock the
servo, set mode DISARMED with the slow-blink LED pattern, zero the three
timers, log a DISARM event and enqueue the two mode/alarm publishes. -/
def disarmSystem (source : String) (st : MachineState) : Bool × MachineState :=
  let prevMode := st.mode
  let st1 := { st with
    buzzerOn := false
    servoLocked := false
    mode := SystemMode.DISARMED
    ledPattern := LEDPattern.SLOW_BLINK
    lastMotionTime := 0
    preAlarmStart := 0
    alarmStart := 0 }
  let st2 := logEvent "DISARM" ("Source: " ++ source ++ ", Previous: " ++ prevMode.value) st1
  (true, { st2 with taskQueue := st2.taskQueue ++
      [Task.publish "mode" (PubVal.s "disarmed"), Task.publish "alarm" (PubVal.n 0)] })

/-- `handle_motion()` at clock sample `now`: always record
`_last_motion_time = now`; when DISARMED, nothing else happens; otherwise
publish motion, and either transition ARMED to PRE_ALARM (recording the
pre-alarm start, enqueueing one photo capture, logging MOTION_DETECTED)
or, in ALARM, enqueue an interval photo when the photo interval has
elapsed. -/
def handleMotion (now : ℚ) (cfg : SMConfig) (st : MachineState) : MachineState :=
  let st0 := { st with lastMotionTime := now }
  if st0.mode = SystemMode.DISARMED then
    st0
  else
    let st1 := { st0 with taskQueue := st0.taskQueue ++ [Task.publish "motion" (PubVal.n 1)] }
    if st1.mode = SystemMode.ARMED then
      let st2 := { st1 with
        mode := SystemMode.PRE_ALARM
        preAlarmStart := now
        ledPattern := LEDPattern.SOLID
        taskQueue := st1.taskQueue ++ [Task.capturePhoto "Motion Trigger"] }
      logEvent "MOTION_DETECTED" "Entering pre-alarm state" st2
    else if st1.mode = SystemMode.ALARM then
      if now - st1.lastPhotoTime ≥ cfg.photoIntervalSeconds then
        { st1 with taskQueue := st1.taskQueue ++ [Task.capturePhoto "Alarm Interval"] }
      else st1
    else st1

/-- `handle_rfid(tag_id)`: with an empty allow-list, log an error and
return (no event, no transition).  Unauthorized tags log an
RFID_UNAUTHORIZED event.  Authorized tags toggle: arm when DISARMED,
disarm otherwise.  The Python code compares `str(tag_id) == str(auth_id)`
where both sides are ints (`Config.authorized_rfids : List[int]`), which
coincides with integer equality. -/
def handleRfid (tagId : Nat) (cfg : SMConfig) (st : MachineState) : MachineState :=
  if cfg.authorizedRfids = [] then
    st
  else if ¬ (cfg.authorizedRfids.any fun authId => tagId == authId) then
    logEvent "RFID_UNAUTHORIZED" ("Tag ID: " ++ toString tagId) st
  else if st.mode = SystemMode.DISARMED then
    (armSystem ("RFID:" ++ toString tagId) st).2
  else
    (disarmSystem ("RFID:" ++ toString tagId) st).2

/-- Python `int()` on a float: truncation toward zero. -/
def pyTrunc (q : ℚ) : ℤ := if 0 ≤ q then ⌊q⌋ else ⌈q⌉

/-- The pre-alarm warning-beep condition of `_loop_main_logic`:
`int(elapsed) % 5 == 0 and (elapsed - int(elapsed) < 0.1)`
(Python `%` on a positive modulus agrees with `Int.emod`). -/
def beepDue (elapsed : ℚ) : Bool :=
  (pyTrunc elapsed % 5 == 0) && decide (elapsed - (pyTrunc elapsed : ℚ) < 1/10)

/-- One iteration of the `_loop_main_logic` body at clock sample `now`:
in PRE_ALARM, possibly enqueue a warning beep, and on expiry of the
pre-alarm delay transition to ALARM (siren on, email alert enqueued,
ALARM_TRIGGERED logged, `publish("alarm", 1)` enqueued); in ALARM,
return to ARMED on duration timeout, else on motion timeout (siren off,
ALARM_RESET logged, `publish("alarm", 0)` enqueued). -/
def tickMainLogic (now : ℚ) (cfg : SMConfig) (st : MachineState) : MachineState :=
  if st.mode = SystemMode.PRE_ALARM then
    let elapsed := now - st.preAlarmStart
    let st1 :=
      if !st.stealthMode && beepDue elapsed then
        { st with taskQueue := st.taskQueue ++ [Task.beep (1/5)] }
      else st
    if elapsed > cfg.preAlarmDelaySeconds then
      let st2 := { st1 with
        mode := SystemMode.ALARM
        alarmStart := now
        ledPattern := LEDPattern.FAST_BLINK
        buzzerOn := true
        taskQueue := st1.taskQueue ++ [Task.sendEmailAlert] }
      let st3 := logEvent "ALARM_TRIGGERED" "Pre-alarm timeout expired" st2
      { st3 with taskQueue := st3.taskQueue ++ [Task.publish "alarm" (PubVal.n 1)] }
    else st1
  else if st.mode = SystemMode.ALARM then
    let alarmDuration := now - st.alarmStart
    let motionTimeout := now - st.lastMotionTime
    if alarmDuration > cfg.alarmDurationSeconds then
      let st1 := { st with
        mode := SystemMode.ARMED
        buzzerOn := false
        ledPattern := if st.stealthMode then LEDPattern.OFF else LEDPattern.SOLID }
      let st2 := logEvent "ALARM_RESET" "Duration timeout" st1
      { st2 with taskQueue := st2.taskQueue ++ [Task.publish "alarm" (PubVal.n 0)] }
    else if motionTimeout > cfg.motionTimeoutSeconds then
      let st1 := { st with
        mode := SystemMode.ARMED
        buzzerOn := false
        ledPattern := if st.stealthMode then LEDPattern.OFF else LEDPattern.SOLID }
      let st2 := logEvent "ALARM_RESET" "Motion timeout" st1
      { st2 with taskQueue := st2.taskQueue ++ [Task.publish "alarm" (PubVal.n 0)] }
    else st
  else st

/-- Number of tasks in a queue satisfying a predicate. -/
def countTasks (p : Task → Bool) (q : List Task) : Nat := (q.filter p).length

/-- Recognizer for photo-capture tasks. -/
def isCapturePhoto : Task → Bool
  | Task.capturePhoto _ => true
  | _ => false

/-- Recognizer for email-alert tasks. -/
def isSendEmailAlert : Task → Bool
  | Task.sendEmailAlert => true
  | _ => false

/-- Number of events of a given type in a log. -/
def countEvents (etype : String) (log : List Event) : Nat :=
  (log.filter fun e => e.etype == etype).length

/-!
Embedding of `database_interface.py` (`DatabaseInterface`).

A local SQLite row is its autoincrement id, its payload and its
`synced` flag.  The remote Postgres (Neon) store is a list of committed
payloads.  A remote interaction is abstracted by its outcome: whether
`psycopg2.connect` succeeds, which `INSERT` statements are accepted, and
whether the transaction opened by `with pg:` reaches a durable COMMIT.
Per PostgreSQL/psycopg2 semantics, once one statement of a transaction
fails every later statement of that transaction fails too and the final
COMMIT rolls the whole transaction back, so a single sticky failure flag
governs both.
-/

/-- One row of a local buffer table: autoincrement id, payload, and the
`synced` flag (SQLite `synced INTEGER DEFAULT 0`). -/
structure BufRow (α : Type) where
  id : Nat
  payload : α
  synced : Bool
deriving DecidableEq, Repr

/-- Payload of a `measurements` row (timestamp, temperature, humidity). -/
structure Meas where
  timestamp : String
  temperature : ℚ
  humidity : ℚ
deriving DecidableEq, Repr

/-- Payload of a `security_events` row. -/
structure Sec where
  timestamp : String
  eventType : String
  details : String
  mode : String
deriving DecidableEq, Repr

/-- Outcome of one remote interaction: whether connecting succeeds,
which statement executions (by position in the batch) are accepted, and
whether the final COMMIT of the `with pg:` transaction becomes durable
(false models a connection drop or crash between the inserts and the
commit). -/
structure RemoteOutcome where
  connectOk : Bool
  insertOk : Nat → Bool
  commitOk : Bool

/-- State of one buffered table and its remote mirror. -/
structure TableState (α : Type) where
  localRows : List (BufRow α)
  remoteRows : List α
deriving DecidableEq, Repr

/-- `UPDATE ... SET synced=1 WHERE id=?` on the local table. -/
def markSynced {α : Type} (rows : List (BufRow α)) (rowId : Nat) : List (BufRow α) :=
  rows.map fun r => if r.id = rowId then { r with synced := true } else r

/-- One cycle of `_sync_measurements` / `_sync_security` (they are
textually identical up to the table): fetch up to 100 unsynced rows in
id order, connect to Postgres (a connect failure aborts the cycle with
the state unchanged), then inside one remote transaction insert row by
row, marking each local row `synced=1` immediately after its INSERT
statement is accepted — before the transaction commits.  A statement
failure is caught per row and poisons the rest of the transaction; the
inserted payloads become durable remotely only if no statement failed
and the final commit succeeds. -/
def syncTable {α : Type} (out : RemoteOutcome) (ts : TableState α) : TableState α :=
  let batch := (ts.localRows.filter fun r => r.synced = false).take 100
  if batch.isEmpty then ts
  else if !out.connectOk then ts
  else
    let folded := batch.foldl
      (fun (acc : List (BufRow α) × List α × Bool × Nat) r =>
        let (lrs, pending, txFailed, idx) := acc
        if txFailed || !out.insertOk idx then
          (lrs, pending, true, idx + 1)
        else
          (markSynced lrs r.id, pending ++ [r.payload], txFailed, idx + 1))
      (ts.localRows, [], false, 0)
    let lrs := folded.1
    let pending := folded.2.1
    let txFailed := folded.2.2.1
    { localRows := lrs
      remoteRows := if !txFailed && out.commitOk then ts.remoteRows ++ pending else ts.remoteRows }

/-- `_sync_measurements`, one cycle. -/
def syncMeasurements (out : RemoteOutcome) (ts : TableState Meas) : TableState Meas :=
  syncTable out ts

/-- `_sync_security`, one cycle. -/
def syncSecurity (out : RemoteOutcome) (ts : TableState Sec) : TableState Sec :=
  syncTable out ts

/-- The environment a `DatabaseInterface` call runs in: `use_pg` is
`bool(pg_conn_str and psycopg2)`; `pgOk` is whether a direct remote
insert (connect, INSERT, commit) succeeds; `localOk` is whether the
local SQLite insert succeeds. -/
structure DBConfig where
  usePg : Bool
  pgOk : Bool
  localOk : Bool
deriving DecidableEq, Repr

/-- State of the two buffered tables, their remote mirrors, and a
count of remote connection attempts made (a network touch). -/
structure DBState where
  measurements : List (BufRow Meas)
  securityEvents : List (BufRow Sec)
  remoteMeasurements : List Meas
  remoteSecurityEvents : List Sec
  remoteAttempts : Nat
deriving DecidableEq, Repr

/-- `log_environment(temp, humidity)`: when `use_pg`, first attempt a
direct network insert into remote `measurements` and return on success
without touching the local store; on remote failure (or with `use_pg`
false) insert the row into the local SQLite buffer with `synced=0`,
dropping it with a logged error if the local insert itself fails. -/
def logEnvironment (cfg : DBConfig) (m : Meas) (st : DBState) : DBState :=
  if cfg.usePg && cfg.pgOk then
    { st with
      remoteMeasurements := st.remoteMeasurements ++ [m]
      remoteAttempts := st.remoteAttempts + 1 }
  else
    let attempts := if cfg.usePg then st.remoteAttempts + 1 else st.remoteAttempts
    if cfg.localOk then
      { st with
        measurements := st.measurements ++ [⟨st.measurements.length + 1, m, false⟩]
        remoteAttempts := attempts }
    else
      { st with remoteAttempts := attempts }

/-- `log_security(event_type, details, mode)`: same two-path structure
as `log_environment`, over the `security_events` table. -/
def logSecurity (cfg : DBConfig) (s : Sec) (st : DBState) : DBState :=
  if cfg.usePg && cfg.pgOk then
    { st with
      remoteSecurityEvents := st.remoteSecurityEvents ++ [s]
      remoteAttempts := st.remoteAttempts + 1 }
  else
    let attempts := if cfg.usePg then st.remoteAttempts + 1 else st.remoteAttempts
    if cfg.localOk then
      { st with
        securityEvents := st.securityEvents ++ [⟨st.securityEvents.length + 1, s, false⟩]
        remoteAttempts := attempts }
    else
      { st with remoteAttempts := attempts }

/-!  Concrete fixtures used by witnesses and counterexamples. -/

/-- A freshly constructed machine: DISARMED, slow-blink LED, all timers
zero, empty log and queue (the `__init__` state). -/
def st0 : MachineState :=
  ⟨SystemMode.DISARMED, false, LEDPattern.SLOW_BLINK, 0, 0, 0, 0, [], [], false, false⟩

/-- The fresh machine, armed. -/
def stArmed : MachineState := { st0 with mode := SystemMode.ARMED }

/-- The fresh machine, in PRE_ALARM with the pre-alarm timer at zero. -/
def stPre : MachineState := { st0 with mode := SystemMode.PRE_ALARM }

/-- The fresh machine, in ALARM with both timers at zero. -/
def stAlarm : MachineState := { st0 with mode := SystemMode.ALARM }

/-- A sample configuration: 10s pre-alarm delay, 300s alarm duration,
30s motion timeout, 5s photo interval, one authorized tag. -/
def cfgEx : SMConfig := ⟨10, 300, 30, 5, [123]⟩

/-- The sample configuration with an empty RFID allow-list. -/
def cfgNoAuth : SMConfig := ⟨10, 300, 30, 5, []⟩

/-!  Helper lemmas shared between claim proofs. -/

theorem countTasks_append (p : Task → Bool) (q l : List Task) :
    countTasks p (q ++ l) = countTasks p q + countTasks p l := by
  simp [countTasks, List.filter_append]

/-!  Claim theorems. -/

/-- C1: for every current mode, `arm_system` returns `True` iff the
mode is DISARMED, and when the mode is not DISARMED it returns `False`
and leaves the entire machine state (mode, timers, event log, task
queue, actuators) unchanged. -/
theorem arm_succeeds_iff_disarmed (st : MachineState) (source : String) :
    ((armSystem source st).1 = true ↔ st.mode = SystemMode.DISARMED)
    ∧ (st.mode ≠ SystemMode.DISARMED → (armSystem source st).2 = st) := by
  constructor
  · by_cases h : st.mode = SystemMode.DISARMED <;> simp [armSystem, h]
  · intro h
    simp [armSystem, h]

/-- Witness for C1 at a concrete armed state: arming fails and the
state is untouched. -/
theorem arm_succeeds_iff_disarmed_witness :
    (((armSystem "Manual" stArmed).1 = true ↔ stArmed.mode = SystemMode.DISARMED)
      ∧ (stArmed.mode ≠ SystemMode.DISARMED → (armSystem "Manual" stArmed).2 = stArmed)) :=
  arm_succeeds_iff_disarmed stArmed "Manual"

/-- C2: from every prior mode, `disarm_system` returns `True` and
leaves the machine DISARMED with the siren stopped, the servo unlocked,
all three timers zeroed, and exactly one DISARM event appended. -/
theorem disarm_always_succeeds (st : MachineState) (source : String) :
    (disarmSystem source st).1 = true
    ∧ (disarmSystem source st).2.mode = SystemMode.DISARMED
    ∧ (disarmSystem source st).2.buzzerOn = false
    ∧ (disarmSystem source st).2.servoLocked = false
    ∧ (disarmSystem source st).2.lastMotionTime = 0
    ∧ (disarmSystem source st).2.preAlarmStart = 0
    ∧ (disarmSystem source st).2.alarmStart = 0
    ∧ (disarmSystem source st).2.eventLog
        = appendEvent st.eventLog
            ⟨"DISARM", "Source: " ++ source ++ ", Previous: " ++ st.mode.value,
              SystemMode.DISARMED⟩ :=
  ⟨rfl, rfl, rfl, rfl, rfl, rfl, rfl, rfl⟩

/-- C3: handling motion while ARMED moves the machine to PRE_ALARM,
records the pre-alarm start time, enqueues exactly one photo-capture
task, and appends exactly one MOTION_DETECTED event. -/
theorem motion_while_armed_pre_alarm (st : MachineState) (cfg : SMConfig) (now : ℚ)
    (h : st.mode = SystemMode.ARMED) :
    (handleMotion now cfg st).mode = SystemMode.PRE_ALARM
    ∧ (handleMotion now cfg st).preAlarmStart = now
    ∧ countTasks isCapturePhoto (handleMotion now cfg st).taskQueue
        = countTasks isCapturePhoto st.taskQueue + 1
    ∧ (handleMotion now cfg st).eventLog
        = appendEvent st.eventLog
            ⟨"MOTION_DETECTED", "Entering pre-alarm state", SystemMode.PRE_ALARM⟩ := by
  simp [handleMotion, logEvent, h, countTasks_append, countTasks, isCapturePhoto]

/-- Witness for C3 at a concrete armed state and clock sample 5. -/
theorem motion_while_armed_pre_alarm_witness :
    stArmed.mode = SystemMode.ARMED
    ∧ ((handleMotion 5 cfgEx stArmed).mode = SystemMode.PRE_ALARM
      ∧ (handleMotion 5 cfgEx stArmed).preAlarmStart = 5
      ∧ countTasks isCapturePhoto (handleMotion 5 cfgEx stArmed).taskQueue
          = countTasks isCapturePhoto stArmed.taskQueue + 1
      ∧ (handleMotion 5 cfgEx stArmed).eventLog
          = appendEvent stArmed.eventLog
              ⟨"MOTION_DETECTED", "Entering pre-alarm state", SystemMode.PRE_ALARM⟩) :=
  ⟨rfl, motion_while_armed_pre_alarm stArmed cfgEx 5 rfl⟩

/-- C10: handling motion while DISARMED sets the last-motion timestamp
to the clock sample and changes nothing else — the resulting state is
exactly the old state with `lastMotionTime` replaced. -/
theorem motion_while_disarmed_frame (st : MachineState) (cfg : SMConfig) (now : ℚ)
    (h : st.mode = SystemMode.DISARMED) :
    handleMotion now cfg st = { st with lastMotionTime := now } := by
  simp [handleMotion, h]

/-- Witness for C10 at the fresh disarmed machine and clock sample 7. -/
theorem motion_while_disarmed_frame_witness :
    st0.mode = SystemMode.DISARMED
    ∧ handleMotion 7 cfgEx st0 = { st0 with lastMotionTime := 7 } :=
  ⟨rfl, motion_while_disarmed_frame st0 cfgEx 7 rfl⟩

/-- A tick taken in ALARM mode never enqueues an email-alert task
(the email alert belongs to the PRE_ALARM-to-ALARM edge only). -/
theorem tick_in_alarm_adds_no_email (st : MachineState) (cfg : SMConfig) (now : ℚ)
    (h : st.mode = SystemMode.ALARM) :
    countTasks isSendEmailAlert (tickMainLogic now cfg st).taskQueue
      = countTasks isSendEmailAlert st.taskQueue := by
  by_cases hd : now - st.alarmStart > cfg.alarmDurationSeconds
  · simp [tickMainLogic, logEvent, h, hd, countTasks_append, countTasks, isSendEmailAlert]
  · by_cases hm : now - st.lastMotionTime > cfg.motionTimeoutSeconds
    · simp [tickMainLogic, logEvent, h, hd, hm, countTasks_append, countTasks, isSendEmailAlert]
    · simp [tickMainLogic, h, hd, hm]

/-- C4: a tick taken in PRE_ALARM after the configured delay has been
exceeded moves the machine to ALARM, starts the siren, appends exactly
one ALARM_TRIGGERED event, enqueues exactly one email-alert task and
exactly one `publish("alarm", 1)` task; and no further tick of the
resulting (ALARM) state ever enqueues another email-alert task. -/
theorem prealarm_expiry_triggers_alarm (st : MachineState) (cfg : SMConfig) (now : ℚ)
    (h1 : st.mode = SystemMode.PRE_ALARM)
    (h2 : now - st.preAlarmStart > cfg.preAlarmDelaySeconds) :
    (tickMainLogic now cfg st).mode = SystemMode.ALARM
    ∧ (tickMainLogic now cfg st).buzzerOn = true
    ∧ (tickMainLogic now cfg st).eventLog
        = appendEvent st.eventLog
            ⟨"ALARM_TRIGGERED", "Pre-alarm timeout expired", SystemMode.ALARM⟩
    ∧ countTasks isSendEmailAlert (tickMainLogic now cfg st).taskQueue
        = countTasks isSendEmailAlert st.taskQueue + 1
    ∧ countTasks (fun t => t == Task.publish "alarm" (PubVal.n 1)) (tickMainLogic now cfg st).taskQueue
        = countTasks (fun t => t == Task.publish "alarm" (PubVal.n 1)) st.taskQueue + 1
    ∧ ∀ now2 : ℚ,
        countTasks isSendEmailAlert (tickMainLogic now2 cfg (tickMainLogic now cfg st)).taskQueue
          = countTasks isSendEmailAlert (tickMainLogic now cfg st).taskQueue := by
  have hmode : (tickMainLogic now cfg st).mode = SystemMode.ALARM := by
    by_cases hb : (!st.stealthMode && beepDue (now - st.preAlarmStart)) = true
    · simp [tickMainLogic, logEvent, h1, h2, hb]
    · simp [tickMainLogic, logEvent, h1, h2, hb]
  refine ⟨hmode, ?_, ?_, ?_, ?_, fun now2 => tick_in_alarm_adds_no_email _ cfg now2 hmode⟩
  all_goals
    by_cases hb : (!st.stealthMode && beepDue (now - st.preAlarmStart)) = true <;>
      simp [tickMainLogic, logEvent, h1, h2, hb, countTasks_append, countTasks,
        isSendEmailAlert]

/-- Witness for C4: the fresh PRE_ALARM machine ticked at time 11 with
a 10s pre-alarm delay. -/
theorem prealarm_expiry_triggers_alarm_witness :
    stPre.mode = SystemMode.PRE_ALARM
    ∧ ((11 : ℚ) - stPre.preAlarmStart > cfgEx.preAlarmDelaySeconds)
    ∧ ((tickMainLogic 11 cfgEx stPre).mode = SystemMode.ALARM
      ∧ (tickMainLogic 11 cfgEx stPre).buzzerOn = true
      ∧ (tickMainLogic 11 cfgEx stPre).eventLog
          = appendEvent stPre.eventLog
              ⟨"ALARM_TRIGGERED", "Pre-alarm timeout expired", SystemMode.ALARM⟩
      ∧ countTasks isSendEmailAlert (tickMainLogic 11 cfgEx stPre).taskQueue
          = countTasks isSendEmailAlert stPre.taskQueue + 1
      ∧ countTasks (fun t => t == Task.publish "alarm" (PubVal.n 1)) (tickMainLogic 11 cfgEx stPre).taskQueue
          = countTasks (fun t => t == Task.publish "alarm" (PubVal.n 1)) stPre.taskQueue + 1
      ∧ ∀ now2 : ℚ,
          countTasks isSendEmailAlert (tickMainLogic now2 cfgEx (tickMainLogic 11 cfgEx stPre)).taskQueue
            = countTasks isSendEmailAlert (tickMainLogic 11 cfgEx stPre).taskQueue) :=
  ⟨rfl, by norm_num [stPre, st0, cfgEx],
    prealarm_expiry_triggers_alarm stPre cfgEx 11 rfl (by norm_num [stPre, st0, cfgEx])⟩

/-- C5 as literally stated is false: on the motion-timeout reset the
code logs the ALARM_RESET event with details `"Motion timeout"`, not
`"motion timeout"`.  Concretely: ALARM entered at time 0, last motion
at time 0, tick at time 31 with a 300s maximum and a 30s motion
timeout. -/
theorem alarm_reset_details_counterexample :
    stAlarm.mode = SystemMode.ALARM
    ∧ ¬ ((31 : ℚ) - stAlarm.alarmStart > cfgEx.alarmDurationSeconds)
    ∧ ((31 : ℚ) - stAlarm.lastMotionTime > cfgEx.motionTimeoutSeconds)
    ∧ (tickMainLogic 31 cfgEx stAlarm).eventLog
        = [⟨"ALARM_RESET", "Motion timeout", SystemMode.ARMED⟩]
    ∧ ∀ e ∈ (tickMainLogic 31 cfgEx stAlarm).eventLog, e.details ≠ "motion timeout" := by
  have hmode : stAlarm.mode = SystemMode.ALARM := rfl
  have hno : ¬ ((31 : ℚ) - stAlarm.alarmStart > cfgEx.alarmDurationSeconds) := by
    norm_num [stAlarm, st0, cfgEx]
  have hyes : (31 : ℚ) - stAlarm.lastMotionTime > cfgEx.motionTimeoutSeconds := by
    norm_num [stAlarm, st0, cfgEx]
  have hlog0 : (tickMainLogic 31 cfgEx stAlarm).eventLog
      = appendEvent stAlarm.eventLog ⟨"ALARM_RESET", "Motion timeout", SystemMode.ARMED⟩ := by
    simp [tickMainLogic, logEvent, hmode, hno, hyes]
  have hlog : (tickMainLogic 31 cfgEx stAlarm).eventLog
      = [⟨"ALARM_RESET", "Motion timeout", SystemMode.ARMED⟩] := by
    rw [hlog0]
    simp [stAlarm, st0, appendEvent, maxLogSize]
  refine ⟨hmode, hno, hyes, hlog, ?_⟩
  rw [hlog]
  simp

/-- C5 (amended): a tick taken in ALARM when the alarm duration has not
exceeded its maximum but the time since the last motion exceeds the
motion timeout returns the machine to ARMED, stops the siren, and
appends exactly one ALARM_RESET event with details `"Motion timeout"`. -/
theorem alarm_motion_timeout_rearms (st : MachineState) (cfg : SMConfig) (now : ℚ)
    (h1 : st.mode = SystemMode.ALARM)
    (h2 : ¬ (now - st.alarmStart > cfg.alarmDurationSeconds))
    (h3 : now - st.lastMotionTime > cfg.motionTimeoutSeconds) :
    (tickMainLogic now cfg st).mode = SystemMode.ARMED
    ∧ (tickMainLogic now cfg st).buzzerOn = false
    ∧ (tickMainLogic now cfg st).eventLog
        = appendEvent st.eventLog ⟨"ALARM_RESET", "Motion timeout", SystemMode.ARMED⟩ := by
  refine ⟨?_, ?_, ?_⟩ <;> simp [tickMainLogic, logEvent, h1, h2, h3]

/-- Witness for the amended C5: ALARM entered at time 0, last motion at
time 0, tick at time 31 with a 300s maximum and a 30s motion timeout. -/
theorem alarm_motion_timeout_rearms_witness :
    stAlarm.mode = SystemMode.ALARM
    ∧ ¬ ((31 : ℚ) - stAlarm.alarmStart > cfgEx.alarmDurationSeconds)
    ∧ ((31 : ℚ) - stAlarm.lastMotionTime > cfgEx.motionTimeoutSeconds)
    ∧ ((tickMainLogic 31 cfgEx stAlarm).mode = SystemMode.ARMED
      ∧ (tickMainLogic 31 cfgEx stAlarm).buzzerOn = false
      ∧ (tickMainLogic 31 cfgEx stAlarm).eventLog
          = appendEvent stAlarm.eventLog ⟨"ALARM_RESET", "Motion timeout", SystemMode.ARMED⟩) :=
  ⟨rfl, by norm_num [stAlarm, st0, cfgEx], by norm_num [stAlarm, st0, cfgEx],
    alarm_motion_timeout_rearms stAlarm cfgEx 31 rfl
      (by norm_num [stAlarm, st0, cfgEx]) (by norm_num [stAlarm, st0, cfgEx])⟩

/-- C8 as literally stated is false: with an empty allow-list every tag
is outside the authorized set, yet `handle_rfid` only logs an error and
returns — no RFID_UNAUTHORIZED event is appended.  Concretely: tag 123
scanned on an armed machine configured with no authorized tags. -/
theorem rfid_empty_allowlist_counterexample :
    (123 ∉ cfgNoAuth.authorizedRfids)
    ∧ handleRfid 123 cfgNoAuth stArmed = stArmed
    ∧ countEvents "RFID_UNAUTHORIZED" (handleRfid 123 cfgNoAuth stArmed).eventLog = 0 :=
  ⟨by simp [cfgNoAuth], rfl, rfl⟩

/-- C8 (amended): provided the authorized set is non-empty, scanning a
badge outside it appends exactly one RFID_UNAUTHORIZED event and leaves
the mode unchanged, from every current mode. -/
theorem rfid_unauthorized_logs_event (st : MachineState) (cfg : SMConfig) (tagId : Nat)
    (h1 : cfg.authorizedRfids ≠ [])
    (h2 : tagId ∉ cfg.authorizedRfids) :
    (handleRfid tagId cfg st).mode = st.mode
    ∧ (handleRfid tagId cfg st).eventLog
        = appendEvent st.eventLog
            ⟨"RFID_UNAUTHORIZED", "Tag ID: " ++ toString tagId, st.mode⟩ := by
  have hany : (cfg.authorizedRfids.any fun authId => tagId == authId) = false := by
    simp only [List.any_eq_false, beq_iff_eq]
    intro a ha hEq
    exact h2 (hEq ▸ ha)
  constructor <;> simp [handleRfid, logEvent, h1, hany]

/-- Witness for the amended C8: tag 999 scanned on the armed machine
whose allow-list is the single tag 123. -/
theorem rfid_unauthorized_logs_event_witness :
    cfgEx.authorizedRfids ≠ []
    ∧ (999 ∉ cfgEx.authorizedRfids)
    ∧ ((handleRfid 999 cfgEx stArmed).mode = stArmed.mode
      ∧ (handleRfid 999 cfgEx stArmed).eventLog
          = appendEvent stArmed.eventLog
              ⟨"RFID_UNAUTHORIZED", "Tag ID: " ++ toString 999, stArmed.mode⟩) :=
  ⟨by simp [cfgEx], by simp [cfgEx],
    rfid_unauthorized_logs_event stArmed cfgEx 999 (by simp [cfgEx]) (by simp [cfgEx])⟩

/-- C9: scanning an authorized badge while DISARMED arms the machine,
and scanning the same badge again on the resulting (ARMED) machine
disarms it again. -/
theorem rfid_round_trip (st : MachineState) (cfg : SMConfig) (tagId : Nat)
    (h1 : tagId ∈ cfg.authorizedRfids)
    (h2 : st.mode = SystemMode.DISARMED) :
    (handleRfid tagId cfg st).mode = SystemMode.ARMED
    ∧ (handleRfid tagId cfg (handleRfid tagId cfg st)).mode = SystemMode.DISARMED := by
  have hne : cfg.authorizedRfids ≠ [] := by
    intro hnil
    rw [hnil] at h1
    exact List.not_mem_nil tagId h1
  have hany : (cfg.authorizedRfids.any fun authId => tagId == authId) = true := by
    simp only [List.any_eq_true, beq_iff_eq]
    exact ⟨tagId, h1, rfl⟩
  have harm : (handleRfid tagId cfg st).mode = SystemMode.ARMED := by
    simp [handleRfid, armSystem, logEvent, hne, hany, h2]
  have hdis : ∀ s : MachineState, s.mode = SystemMode.ARMED →
      (handleRfid tagId cfg s).mode = SystemMode.DISARMED := by
    intro s hs
    simp [handleRfid, disarmSystem, logEvent, hne, hany, hs]
  exact ⟨harm, hdis _ harm⟩

/-- Witness for C9: tag 123 against the allow-list consisting of 123,
starting from the fresh disarmed machine. -/
theorem rfid_round_trip_witness :
    (123 ∈ cfgEx.authorizedRfids)
    ∧ st0.mode = SystemMode.DISARMED
    ∧ ((handleRfid 123 cfgEx st0).mode = SystemMode.ARMED
      ∧ (handleRfid 123 cfgEx (handleRfid 123 cfgEx st0)).mode = SystemMode.DISARMED) :=
  ⟨by simp [cfgEx], rfl, rfid_round_trip st0 cfgEx 123 (by simp [cfgEx]) rfl⟩

/-!  Fixtures for the database-interface claims. -/

/-- A first buffered measurement. -/
def measA : Meas := ⟨"2025-01-01T00:00:00", 21, 40⟩

/-- A second buffered measurement. -/
def measB : Meas := ⟨"2025-01-01T00:00:15", 22, 41⟩

/-- A measurement used by the append-path claims. -/
def measC : Meas := ⟨"2025-01-01T00:01:00", 23, 42⟩

/-- A security event used by the append-path claims. -/
def secC : Sec := ⟨"2025-01-01T00:01:00", "ARM", "Source: Manual", "armed"⟩

/-- Two unsynced local measurement rows and an empty remote table. -/
def syncStateEx : TableState Meas := ⟨[⟨1, measA, false⟩, ⟨2, measB, false⟩], []⟩

/-- A remote interaction that accepts the connection and the first
INSERT, then fails from the second INSERT on (a mid-batch connection
drop): per PostgreSQL semantics the transaction aborts and its final
COMMIT durably commits nothing, whatever `commitOk` would have been. -/
def remoteMidBatchFail : RemoteOutcome := ⟨true, fun idx => idx == 0, true⟩

/-- An empty local/remote database state. -/
def dbEmpty : DBState := ⟨[], [], [], [], 0⟩

/-- C6 fails on the code: `_sync_measurements` marks each local row
`synced=1` immediately after its INSERT statement is accepted, inside
the still-open remote transaction.  On a mid-batch failure (second
INSERT of a two-row batch fails) the transaction commits nothing, yet
row 1 is already marked synced — a local row marked synced without a
confirmed (committed) remote insert. -/
theorem sync_marks_row_without_committed_insert :
    ((syncStateEx.localRows.map fun r => (r.id, r.synced)) = [(1, false), (2, false)])
    ∧ (((syncMeasurements remoteMidBatchFail syncStateEx).localRows.map
          fun r => (r.id, r.synced)) = [(1, true), (2, false)])
    ∧ (syncMeasurements remoteMidBatchFail syncStateEx).remoteRows = [] :=
  ⟨rfl, rfl, rfl⟩

/-- C7 as literally stated is false: with a configured remote
(`use_pg`) and a reachable Postgres, `log_environment` and
`log_security` write the row over the network and never insert it into
the local durable store. -/
theorem log_paths_counterexample :
    (logEnvironment ⟨true, true, true⟩ measC dbEmpty).measurements = []
    ∧ (logEnvironment ⟨true, true, true⟩ measC dbEmpty).remoteAttempts = 1
    ∧ (logEnvironment ⟨true, true, true⟩ measC dbEmpty).remoteMeasurements = [measC]
    ∧ (logSecurity ⟨true, true, true⟩ secC dbEmpty).securityEvents = []
    ∧ (logSecurity ⟨true, true, true⟩ secC dbEmpty).remoteAttempts = 1
    ∧ (logSecurity ⟨true, true, true⟩ secC dbEmpty).remoteSecurityEvents = [secC] :=
  ⟨rfl, rfl, rfl, rfl, rfl, rfl⟩

/-- C7 (amended): only when direct Postgres writes are not configured
(`use_pg` false) do `log_environment` and `log_security` stay entirely
local — no network touch, the row always inserted into the local store
with `synced=0` when local storage works, and dropped (state unchanged)
on a local storage error.  When `use_pg` is true each call first
attempts one network insert; on remote success the local store is
skipped, and on remote failure the row falls back to the local buffer
under the same local-storage discipline. -/
theorem log_paths_amended (cfg : DBConfig) (m : Meas) (s : Sec) (st : DBState) :
    (cfg.usePg = false →
      (logEnvironment cfg m st).remoteAttempts = st.remoteAttempts
      ∧ (logEnvironment cfg m st).remoteMeasurements = st.remoteMeasurements
      ∧ (logSecurity cfg s st).remoteAttempts = st.remoteAttempts
      ∧ (logSecurity cfg s st).remoteSecurityEvents = st.remoteSecurityEvents)
    ∧ (cfg.usePg = true →
      (logEnvironment cfg m st).remoteAttempts = st.remoteAttempts + 1
      ∧ (logSecurity cfg s st).remoteAttempts = st.remoteAttempts + 1)
    ∧ (cfg.usePg = true → cfg.pgOk = true →
      (logEnvironment cfg m st).measurements = st.measurements
      ∧ (logEnvironment cfg m st).remoteMeasurements = st.remoteMeasurements ++ [m]
      ∧ (logSecurity cfg s st).securityEvents = st.securityEvents
      ∧ (logSecurity cfg s st).remoteSecurityEvents = st.remoteSecurityEvents ++ [s])
    ∧ ((cfg.usePg = false ∨ cfg.pgOk = false) →
      (cfg.localOk = true →
        (logEnvironment cfg m st).measurements
          = st.measurements ++ [⟨st.measurements.length + 1, m, false⟩]
        ∧ (logSecurity cfg s st).securityEvents
          = st.securityEvents ++ [⟨st.securityEvents.length + 1, s, false⟩])
      ∧ (cfg.localOk = false →
        (logEnvironment cfg m st).measurements = st.measurements
        ∧ (logSecurity cfg s st).securityEvents = st.securityEvents))
    ∧ (cfg.usePg = false → cfg.localOk = false →
      logEnvironment cfg m st = st ∧ logSecurity cfg s st = st) := by
  obtain ⟨u, p, l⟩ := cfg
  cases u <;> cases p <;> cases l <;>
    simp [logEnvironment, logSecurity]

/-- Witness for the amended C7 at a concrete configuration with no
remote configured and working local storage. -/
theorem log_paths_amended_witness :
    (DBConfig.mk false false true).usePg = false
    ∧ ((DBConfig.mk false false true).usePg = false →
        (logEnvironment (DBConfig.mk false false true) measC dbEmpty).remoteAttempts
          = dbEmpty.remoteAttempts
        ∧ (logEnvironment (DBConfig.mk false false true) measC dbEmpty).remoteMeasurements
          = dbEmpty.remoteMeasurements
        ∧ (logSecurity (DBConfig.mk false false true) secC dbEmpty).remoteAttempts
          = dbEmpty.remoteAttempts
        ∧ (logSecurity (DBConfig.mk false false true) secC dbEmpty).remoteSecurityEvents
          = dbEmpty.remoteSecurityEvents) :=
  ⟨rfl, (log_paths_amended (DBConfig.mk false false true) measC secC dbEmpty).1⟩

end AnlexGuard
